import Mathlib

/-!
Verification of the Aab-e-Hayat water-delivery CRM ledger core.

The definitions below are a shallow embedding of the TypeScript source
(`src/app/dashboard/page.tsx`, with `src/unnamed/part_001` / `part_002` as
near-identical variants).  Monetary amounts and quantities are modelled as
exact integers (`ℤ`); the JavaScript string operators `<=` / `>=` used for
date filtering are modelled by an explicit lexicographic code-point
comparison (`jsLe`), and `String.prototype.toLowerCase` by an explicit
ASCII lower-casing (`jsToLower`).  The division appearing in the reports
tab is modelled with an explicit IEEE-style extended number type (`JSNum`)
over exact rationals, so that NaN / Infinity behaviour of JavaScript
division is captured (the negative-zero refinement is irrelevant here and
is not modelled).  Record timestamps (`Date.now`, `toISOString`) and the
date parser (`new Date(string)`) are host-environment inputs and are
passed in explicitly as parameters.
-/

namespace WaterCRM

/-- Customer record, as in the `Customer` interface of the source. -/
structure Customer where
  id : String
  flatNumber : String
  name : String
  phone : String
  rate : ℤ
  createdAt : String
deriving DecidableEq

/-- Delivery record, as in the `Delivery` interface of the source. -/
structure Delivery where
  id : String
  date : String
  flatNumber : String
  customerName : String
  delivered : ℤ
  collected : ℤ
  notes : String
  amount : ℤ
  createdAt : String
deriving DecidableEq

/-- Payment record, as in the `Payment` interface of the source; the
`paymentMethod` and `status` fields keep their source string values. -/
structure Payment where
  id : String
  date : String
  flatNumber : String
  customerName : String
  totalBill : ℤ
  amountReceived : ℤ
  remainingBalance : ℤ
  paymentMethod : String
  status : String
  notes : String
  createdAt : String
deriving DecidableEq

/-- Expense record, as in the `Expense` interface of the source. -/
structure Expense where
  id : String
  date : String
  category : String
  description : String
  amount : ℤ
  paymentMethod : String
  notes : String
  createdAt : String
deriving DecidableEq

/-- The full per-business state, as in the `AppData` interface. -/
structure AppData where
  customers : List Customer
  deliveries : List Delivery
  payments : List Payment
  expenses : List Expense
  lastSaved : String
deriving DecidableEq

/-- Lexicographic code-point comparison on character lists; model of the
JavaScript `<=` operator on strings (restricted to the BMP, which covers
every date string the application produces). -/
def lexLe : List Char → List Char → Bool
  | [], _ => true
  | _ :: _, [] => false
  | a :: as, b :: bs =>
    if a.toNat < b.toNat then true
    else if b.toNat < a.toNat then false
    else lexLe as bs

/-- Model of the JavaScript string comparison `a <= b`. -/
def jsLe (a b : String) : Bool := lexLe a.data b.data

/-- ASCII lower-casing of a single character, model of what
`toLowerCase` does on the characters the app uses for flat numbers. -/
def jsCharLower (c : Char) : Char :=
  if 65 ≤ c.toNat ∧ c.toNat ≤ 90 then Char.ofNat (c.toNat + 32) else c

/-- Model of JavaScript `String.prototype.toLowerCase` (ASCII range). -/
def jsToLower (s : String) : String := String.mk (s.data.map jsCharLower)

/-- `Calculator.getCustomerOutstanding` from the source: total billed to a
flat number minus total received from it, both computed by filtering the
ledgers on exact flat-number equality and folding the amounts. -/
def getCustomerOutstanding (flatNumber : String) (deliveries : List Delivery)
    (payments : List Payment) : ℤ :=
  let totalBilled :=
    (deliveries.filter (fun d => d.flatNumber == flatNumber)).foldl
      (fun sum d => sum + d.amount) 0
  let totalPaid :=
    (payments.filter (fun p => p.flatNumber == flatNumber)).foldl
      (fun sum p => sum + p.amountReceived) 0
  totalBilled - totalPaid

/-- Folding addition of a projected field equals the initial value plus the
sum of the projections (the `reduce((sum, x) => sum + f(x), 0)` idiom). -/
theorem foldl_add_map {α : Type} (f : α → ℤ) :
    ∀ (l : List α) (a : ℤ), l.foldl (fun s x => s + f x) a = a + (l.map f).sum := by
  intro l
  induction l with
  | nil => intro a; simp
  | cons x xs ih => intro a; simp [ih]; ring

/-- A concrete payment used to exhibit an overpaid (negative) balance. -/
def overpayPayment : Payment :=
  { id := "pay_1", date := "2026-01-02", flatNumber := "A1", customerName := "Ali",
    totalBill := 0, amountReceived := 1, remainingBalance := 0,
    paymentMethod := "cash", status := "pending", notes := "", createdAt := "t1" }

/-- C1: for every flat number and collections state, `getCustomerOutstanding`
equals the sum of `amount` over the deliveries of that flat number minus the
sum of `amountReceived` over its payments, and the result can be negative
when payments exceed deliveries (no flooring at zero). -/
theorem getCustomerOutstanding_spec :
    (∀ (f : String) (ds : List Delivery) (ps : List Payment),
      getCustomerOutstanding f ds ps =
        ((ds.filter (fun d => d.flatNumber == f)).map Delivery.amount).sum -
        ((ps.filter (fun p => p.flatNumber == f)).map Payment.amountReceived).sum) ∧
    (∃ (f : String) (ds : List Delivery) (ps : List Payment),
      getCustomerOutstanding f ds ps < 0) := by
  constructor
  · intro f ds ps
    simp [getCustomerOutstanding, foldl_add_map]
  · exact ⟨"A1", [], [overpayPayment], by decide⟩

/-- A partial state update, model of the TypeScript `Partial<AppData>`
argument of `Storage.saveData`: `none` means the field is absent from the
update object (spread keeps the current value). -/
structure AppDataUpdate where
  customers : Option (List Customer)
  deliveries : Option (List Delivery)
  payments : Option (List Payment)
  expenses : Option (List Expense)
deriving DecidableEq

/-- The merged snapshot `{ ...currentData, ...updates, lastSaved: now }`
built by `Storage.saveData` before attempting to persist. -/
def mergeSave (updates : AppDataUpdate) (current : AppData) (nowIso : String) : AppData :=
  { customers := updates.customers.getD current.customers,
    deliveries := updates.deliveries.getD current.deliveries,
    payments := updates.payments.getD current.payments,
    expenses := updates.expenses.getD current.expenses,
    lastSaved := nowIso }

/-- `Storage.saveData` from the source.  `ok` is the outcome of the
`localStorage.setItem` call (the host may throw on quota/serialization
failure): on success the merged snapshot is returned, on failure the
`catch` block returns the previous snapshot unchanged.  The function is
total — nothing ever propagates to the caller. -/
def saveData (ok : Bool) (updates : AppDataUpdate) (current : AppData)
    (nowIso : String) : AppData :=
  let updated := mergeSave updates current nowIso
  if ok then updated else current

/-- The customer form state of the dashboard component. -/
structure CustomerForm where
  flatNumber : String
  name : String
  phone : String
  rate : ℤ
deriving DecidableEq

/-- The delivery form state of the dashboard component. -/
structure DeliveryForm where
  date : String
  flatNumber : String
  delivered : ℤ
  collected : ℤ
  notes : String
deriving DecidableEq

/-- The payment form state of the dashboard component. -/
structure PaymentForm where
  date : String
  flatNumber : String
  amountReceived : ℤ
  method : String
  notes : String
deriving DecidableEq

/-- The expense form state of the dashboard component. -/
structure ExpenseForm where
  date : String
  category : String
  description : String
  amount : ℤ
  method : String
  notes : String
deriving DecidableEq

/-- `addCustomer` from the source.  Returns the new state together with the
alert message shown (if any).  `ok` is the persistence outcome, `nowIso`
the creation timestamp and `newId` the generated `cust_${Date.now()}` id. -/
def addCustomer (ok : Bool) (nowIso newId : String) (form : CustomerForm)
    (data : AppData) : AppData × Option String :=
  if form.flatNumber = "" ∨ form.name = "" then
    (data, some "⚠️ Please fill required fields")
  else if data.customers.any
      (fun c => jsToLower c.flatNumber == jsToLower form.flatNumber) then
    (data, some "⚠️ Flat number exists!")
  else
    let newCustomer : Customer :=
      { id := newId, flatNumber := form.flatNumber, name := form.name,
        phone := form.phone, rate := form.rate, createdAt := nowIso }
    (saveData ok
      { customers := some (data.customers ++ [newCustomer]),
        deliveries := none, payments := none, expenses := none } data nowIso,
     some "✅ Customer added!")

/-- `deleteCustomer` from the source.  `confirmed` is the outcome of the
`confirm` dialog; deletion filters the customer out by id and cascades to
the deliveries and payments carrying the customer's flat number. -/
def deleteCustomer (ok : Bool) (nowIso : String) (confirmed : Bool)
    (id : String) (data : AppData) : AppData :=
  if !confirmed then data
  else
    match data.customers.find? (fun c => c.id == id) with
    | none => data
    | some customer =>
      saveData ok
        { customers := some (data.customers.filter (fun c => c.id != id)),
          deliveries := some
            (data.deliveries.filter (fun d => d.flatNumber != customer.flatNumber)),
          payments := some
            (data.payments.filter (fun p => p.flatNumber != customer.flatNumber)),
          expenses := none } data nowIso

/-- `addDelivery` from the source: validation alert on a missing required
field, silent return when the flat number matches no customer, otherwise a
new delivery is appended with `amount = delivered * customer.rate`. -/
def addDelivery (ok : Bool) (nowIso newId : String) (form : DeliveryForm)
    (data : AppData) : AppData × Option String :=
  if form.date = "" ∨ form.flatNumber = "" ∨ form.delivered = 0 then
    (data, some "⚠️ Please fill required fields")
  else
    match data.customers.find? (fun c => c.flatNumber == form.flatNumber) with
    | none => (data, none)
    | some customer =>
      let newDelivery : Delivery :=
        { id := newId, date := form.date, flatNumber := form.flatNumber,
          customerName := customer.name, delivered := form.delivered,
          collected := form.collected, notes := form.notes,
          amount := form.delivered * customer.rate, createdAt := nowIso }
      (saveData ok
        { customers := none,
          deliveries := some (data.deliveries ++ [newDelivery]),
          payments := none, expenses := none } data nowIso,
       some "✅ Delivery recorded!")

/-- `deleteDelivery` from the source. -/
def deleteDelivery (ok : Bool) (nowIso : String) (confirmed : Bool)
    (id : String) (data : AppData) : AppData :=
  if confirmed then
    saveData ok
      { customers := none,
        deliveries := some (data.deliveries.filter (fun d => d.id != id)),
        payments := none, expenses := none } data nowIso
  else data

/-- The status chain of `addPayment`: starts at `'pending'`, becomes
`'full'` when the amount covers a positive outstanding balance and
`'partial'` when a positive amount is below the outstanding balance. -/
def paymentStatusOf (amountReceived outstanding : ℤ) : String :=
  if amountReceived ≥ outstanding ∧ outstanding > 0 then "full"
  else if amountReceived > 0 ∧ amountReceived < outstanding then "partial"
  else "pending"

/-- The payment record built by `addPayment`: `totalBill` snapshots the
outstanding balance computed over the pre-payment ledgers, and
`remainingBalance` is that balance minus the amount, floored at zero. -/
def mkNewPayment (nowIso newId : String) (form : PaymentForm)
    (data : AppData) : Payment :=
  let outstanding := getCustomerOutstanding form.flatNumber data.deliveries data.payments
  let remaining := outstanding - form.amountReceived
  { id := newId, date := form.date, flatNumber := form.flatNumber,
    customerName :=
      (((data.customers.find? (fun c => c.flatNumber == form.flatNumber)).map
        Customer.name).getD ""),
    totalBill := outstanding,
    amountReceived := form.amountReceived,
    remainingBalance := if remaining > 0 then remaining else 0,
    paymentMethod := form.method,
    status := paymentStatusOf form.amountReceived outstanding,
    notes := form.notes, createdAt := nowIso }

/-- `addPayment` from the source. -/
def addPayment (ok : Bool) (nowIso newId : String) (form : PaymentForm)
    (data : AppData) : AppData × Option String :=
  if form.date = "" ∨ form.flatNumber = "" ∨ form.amountReceived = 0 then
    (data, some "⚠️ Please fill required fields")
  else
    match data.customers.find? (fun c => c.flatNumber == form.flatNumber) with
    | none => (data, none)
    | some _ =>
      (saveData ok
        { customers := none, deliveries := none,
          payments := some (data.payments ++ [mkNewPayment nowIso newId form data]),
          expenses := none } data nowIso,
       some "✅ Payment recorded!")

/-- `deletePayment` from the source. -/
def deletePayment (ok : Bool) (nowIso : String) (confirmed : Bool)
    (id : String) (data : AppData) : AppData :=
  if confirmed then
    saveData ok
      { customers := none, deliveries := none,
        payments := some (data.payments.filter (fun p => p.id != id)),
        expenses := none } data nowIso
  else data

/-- `addExpense` from the source. -/
def addExpense (ok : Bool) (nowIso newId : String) (form : ExpenseForm)
    (data : AppData) : AppData × Option String :=
  if form.date = "" ∨ form.description = "" ∨ form.amount = 0 then
    (data, some "⚠️ Please fill required fields")
  else
    let newExpense : Expense :=
      { id := newId, date := form.date, category := form.category,
        description := form.description, amount := form.amount,
        paymentMethod := form.method, notes := form.notes, createdAt := nowIso }
    (saveData ok
      { customers := none, deliveries := none, payments := none,
        expenses := some (data.expenses ++ [newExpense]) } data nowIso,
     some "✅ Expense recorded!")

/-- `deleteExpense` from the source. -/
def deleteExpense (ok : Bool) (nowIso : String) (confirmed : Bool)
    (id : String) (data : AppData) : AppData :=
  if confirmed then
    saveData ok
      { customers := none, deliveries := none, payments := none,
        expenses := some (data.expenses.filter (fun e => e.id != id)) } data nowIso
  else data

/-- The eight state-mutating UI actions of the dashboard component. -/
inductive Action where
  | custAdd (ok : Bool) (nowIso newId : String) (form : CustomerForm)
  | custDel (ok : Bool) (nowIso : String) (confirmed : Bool) (id : String)
  | delAdd (ok : Bool) (nowIso newId : String) (form : DeliveryForm)
  | delDel (ok : Bool) (nowIso : String) (confirmed : Bool) (id : String)
  | payAdd (ok : Bool) (nowIso newId : String) (form : PaymentForm)
  | payDel (ok : Bool) (nowIso : String) (confirmed : Bool) (id : String)
  | expAdd (ok : Bool) (nowIso newId : String) (form : ExpenseForm)
  | expDel (ok : Bool) (nowIso : String) (confirmed : Bool) (id : String)

/-- The state transition performed by one UI action. -/
def applyAction : Action → AppData → AppData
  | .custAdd ok n i f, d => (addCustomer ok n i f d).1
  | .custDel ok n c i, d => deleteCustomer ok n c i d
  | .delAdd ok n i f, d => (addDelivery ok n i f d).1
  | .delDel ok n c i, d => deleteDelivery ok n c i d
  | .payAdd ok n i f, d => (addPayment ok n i f d).1
  | .payDel ok n c i, d => deletePayment ok n c i d
  | .expAdd ok n i f, d => (addExpense ok n i f d).1
  | .expDel ok n c i, d => deleteExpense ok n c i d

/-- Whatever is in the payments ledger after a save is what the update
named, or what was there before (failure path). -/
theorem mem_payments_saveData (ok : Bool) (u : AppDataUpdate) (cur : AppData)
    (n : String) (p : Payment) (hp : p ∈ (saveData ok u cur n).payments) :
    p ∈ u.payments.getD cur.payments ∨ p ∈ cur.payments := by
  unfold saveData at hp
  split at hp
  · exact Or.inl hp
  · exact Or.inr hp

/-- No UI action rewrites an existing payment record: a payment present
after any action was either already present verbatim, or is the single
snapshot record appended by `addPayment`. -/
theorem payments_preserved (a : Action) (data : AppData) (p : Payment)
    (hp : p ∈ (applyAction a data).payments) :
    p ∈ data.payments ∨
    ∃ ok nowIso newId form, a = Action.payAdd ok nowIso newId form ∧
      p = mkNewPayment nowIso newId form data := by
  cases a with
  | custAdd ok n i f =>
    left
    simp only [applyAction, addCustomer] at hp
    split at hp
    · exact hp
    · split at hp
      · exact hp
      · rcases mem_payments_saveData _ _ _ _ _ hp with h | h
        · simpa using h
        · exact h
  | custDel ok n c i =>
    left
    simp only [applyAction, deleteCustomer] at hp
    split at hp
    · exact hp
    · split at hp
      · exact hp
      · rcases mem_payments_saveData _ _ _ _ _ hp with h | h
        · simp only [Option.getD_some, List.mem_filter, bne_iff_ne, ne_eq,
            decide_eq_true_eq] at h
          exact h.1
        · exact h
  | delAdd ok n i f =>
    left
    simp only [applyAction, addDelivery] at hp
    split at hp
    · exact hp
    · split at hp
      · exact hp
      · rcases mem_payments_saveData _ _ _ _ _ hp with h | h
        · simpa using h
        · exact h
  | delDel ok n c i =>
    left
    simp only [applyAction, deleteDelivery] at hp
    split at hp
    · rcases mem_payments_saveData _ _ _ _ _ hp with h | h
      · simpa using h
      · exact h
    · exact hp
  | payAdd ok n i f =>
    simp only [applyAction, addPayment] at hp
    split at hp
    · exact Or.inl hp
    · split at hp
      · exact Or.inl hp
      · rcases mem_payments_saveData _ _ _ _ _ hp with h | h
        · rcases (by simpa using h :
              p ∈ data.payments ∨ p = mkNewPayment n i f data) with h2 | h2
          · exact Or.inl h2
          · exact Or.inr ⟨ok, n, i, f, rfl, h2⟩
        · exact Or.inl h
  | payDel ok n c i =>
    left
    simp only [applyAction, deletePayment] at hp
    split at hp
    · rcases mem_payments_saveData _ _ _ _ _ hp with h | h
      · simp only [Option.getD_some, List.mem_filter, bne_iff_ne, ne_eq,
          decide_eq_true_eq] at h
        exact h.1
      · exact h
    · exact hp
  | expAdd ok n i f =>
    left
    simp only [applyAction, addExpense] at hp
    split at hp
    · exact hp
    · rcases mem_payments_saveData _ _ _ _ _ hp with h | h
      · simpa using h
      · exact h
  | expDel ok n c i =>
    left
    simp only [applyAction, deleteExpense] at hp
    split at hp
    · rcases mem_payments_saveData _ _ _ _ _ hp with h | h
      · simpa using h
      · exact h
    · exact hp

/-- The status chain of `addPayment`, characterised for a positive amount:
`'full'` exactly when the amount covers a positive outstanding balance,
`'partial'` exactly when it falls short of it, `'pending'` exactly when
there is no positive balance to apply it against. -/
theorem paymentStatusOf_iff (A B : ℤ) (hA : 0 < A) :
    (paymentStatusOf A B = "full" ↔ (B ≤ A ∧ 0 < B)) ∧
    (paymentStatusOf A B = "partial" ↔ A < B) ∧
    (paymentStatusOf A B = "pending" ↔ B ≤ 0) := by
  unfold paymentStatusOf
  refine ⟨?_, ?_, ?_⟩
  · split_ifs with h1 h2
    · exact iff_of_true rfl ⟨h1.1, h1.2⟩
    · exact iff_of_false (by decide) (fun h => h1 ⟨h.1, h.2⟩)
    · exact iff_of_false (by decide) (fun h => h1 ⟨h.1, h.2⟩)
  · split_ifs with h1 h2
    · exact iff_of_false (by decide) (not_lt.mpr h1.1)
    · exact iff_of_true rfl h2.2
    · exact iff_of_false (by decide) (fun h => h2 ⟨hA, h⟩)
  · split_ifs with h1 h2
    · exact iff_of_false (by decide) (fun h => (not_lt_of_le h) h1.2)
    · exact iff_of_false (by decide) (fun h => (not_lt_of_le h) (lt_trans hA h2.2))
    · refine iff_of_true rfl ?_
      rcases le_or_lt B A with hba | hab
      · exact le_of_not_lt (not_and.mp h1 hba)
      · exact absurd ⟨hA, hab⟩ h2

/-- C2: a payment created by `addPayment` with positive amount A against the
pre-payment outstanding balance B stores status `'full'` iff A ≥ B > 0,
`'partial'` iff 0 < A < B, and `'pending'` otherwise (in particular whenever
B ≤ 0); `addPayment` appends exactly that record (or changes nothing), and
no later UI action ever rewrites a stored payment's status. -/
theorem addPayment_status_rule (ok : Bool) (nowIso newId : String)
    (form : PaymentForm) (data : AppData) (hA : 0 < form.amountReceived) :
    ((mkNewPayment nowIso newId form data).status = "full" ↔
      (getCustomerOutstanding form.flatNumber data.deliveries data.payments ≤
        form.amountReceived ∧
       0 < getCustomerOutstanding form.flatNumber data.deliveries data.payments)) ∧
    ((mkNewPayment nowIso newId form data).status = "partial" ↔
      form.amountReceived <
        getCustomerOutstanding form.flatNumber data.deliveries data.payments) ∧
    ((mkNewPayment nowIso newId form data).status = "pending" ↔
      getCustomerOutstanding form.flatNumber data.deliveries data.payments ≤ 0) ∧
    ((applyAction (Action.payAdd ok nowIso newId form) data).payments = data.payments ∨
     (applyAction (Action.payAdd ok nowIso newId form) data).payments =
       data.payments ++ [mkNewPayment nowIso newId form data]) ∧
    (∀ (a : Action) (d : AppData) (p : Payment), p ∈ (applyAction a d).payments →
      p ∈ d.payments ∨ ∃ ok2 n2 i2 f2, a = Action.payAdd ok2 n2 i2 f2 ∧
        p = mkNewPayment n2 i2 f2 d) := by
  have hs : (mkNewPayment nowIso newId form data).status =
      paymentStatusOf form.amountReceived
        (getCustomerOutstanding form.flatNumber data.deliveries data.payments) := rfl
  have hiff := paymentStatusOf_iff form.amountReceived
    (getCustomerOutstanding form.flatNumber data.deliveries data.payments) hA
  refine ⟨hs ▸ hiff.1, hs ▸ hiff.2.1, hs ▸ hiff.2.2, ?_, payments_preserved⟩
  simp only [applyAction, addPayment]
  split
  · exact Or.inl rfl
  · split
    · exact Or.inl rfl
    · simp only [saveData, mergeSave]
      split
      · exact Or.inr rfl
      · exact Or.inl rfl

/-- Concrete payment form used to instantiate the payment theorems. -/
def wPayForm : PaymentForm :=
  { date := "2026-01-05", flatNumber := "A1", amountReceived := 100,
    method := "cash", notes := "" }

/-- The empty state used to instantiate the payment theorems. -/
def emptyData : AppData :=
  { customers := [], deliveries := [], payments := [], expenses := [], lastSaved := "" }

/-- Witness for C2: against an empty ledger the outstanding balance is 0, so
a payment of 100 is stored with status `'pending'`. -/
theorem addPayment_status_rule_witness :
    (0 : ℤ) < wPayForm.amountReceived ∧
    (mkNewPayment "2026-01-05T10:00:00Z" "pay_1" wPayForm emptyData).status = "pending" :=
  ⟨by decide,
   (addPayment_status_rule true "2026-01-05T10:00:00Z" "pay_1" wPayForm emptyData
     (by decide)).2.2.1.mpr (by decide)⟩

/-- C3: a payment created by `addPayment` snapshots the outstanding balance
of that moment as `totalBill`, stores `remainingBalance = max (totalBill −
amountReceived) 0`, `addPayment` appends exactly that record (or changes
nothing), and no later UI action ever rewrites a stored payment. -/
theorem addPayment_snapshot (ok : Bool) (nowIso newId : String)
    (form : PaymentForm) (data : AppData) :
    (mkNewPayment nowIso newId form data).totalBill =
      getCustomerOutstanding form.flatNumber data.deliveries data.payments ∧
    (mkNewPayment nowIso newId form data).remainingBalance =
      max ((mkNewPayment nowIso newId form data).totalBill - form.amountReceived) 0 ∧
    ((applyAction (Action.payAdd ok nowIso newId form) data).payments = data.payments ∨
     (applyAction (Action.payAdd ok nowIso newId form) data).payments =
       data.payments ++ [mkNewPayment nowIso newId form data]) ∧
    (∀ (a : Action) (d : AppData) (p : Payment), p ∈ (applyAction a d).payments →
      p ∈ d.payments ∨ ∃ ok2 n2 i2 f2, a = Action.payAdd ok2 n2 i2 f2 ∧
        p = mkNewPayment n2 i2 f2 d) := by
  refine ⟨rfl, ?_, ?_, payments_preserved⟩
  · have hr : (mkNewPayment nowIso newId form data).remainingBalance =
        (if getCustomerOutstanding form.flatNumber data.deliveries data.payments -
            form.amountReceived > 0 then
          getCustomerOutstanding form.flatNumber data.deliveries data.payments -
            form.amountReceived
        else 0) := rfl
    rw [hr]
    split_ifs with h
    · exact (max_eq_left (le_of_lt h)).symm
    · exact (max_eq_right (le_of_not_lt h)).symm
  · simp only [applyAction, addPayment]
    split
    · exact Or.inl rfl
    · split
      · exact Or.inl rfl
      · simp only [saveData, mergeSave]
        split
        · exact Or.inr rfl
        · exact Or.inl rfl

/-- Witness for C3: the snapshot equations instantiated at a concrete form
and state. -/
theorem addPayment_snapshot_witness :
    (mkNewPayment "2026-01-05T10:00:00Z" "pay_1" wPayForm emptyData).totalBill =
      getCustomerOutstanding wPayForm.flatNumber emptyData.deliveries
        emptyData.payments ∧
    (mkNewPayment "2026-01-05T10:00:00Z" "pay_1" wPayForm emptyData).remainingBalance =
      max ((mkNewPayment "2026-01-05T10:00:00Z" "pay_1" wPayForm
        emptyData).totalBill - wPayForm.amountReceived) 0 :=
  ⟨(addPayment_snapshot true "2026-01-05T10:00:00Z" "pay_1" wPayForm emptyData).1,
   (addPayment_snapshot true "2026-01-05T10:00:00Z" "pay_1" wPayForm
     emptyData).2.1⟩

/-- C8: `saveData` is a total function (nothing propagates to the caller);
on success it returns the current snapshot merged with the partial update —
fields absent from the update (`none`) fall back to the current values via
`getD` — stamped with a fresh `lastSaved`; on a persistence failure it
returns the previous snapshot completely unmodified. -/
theorem saveData_spec :
    ∀ (updates : AppDataUpdate) (current : AppData) (nowIso : String),
      ((saveData true updates current nowIso).customers =
        updates.customers.getD current.customers) ∧
      ((saveData true updates current nowIso).deliveries =
        updates.deliveries.getD current.deliveries) ∧
      ((saveData true updates current nowIso).payments =
        updates.payments.getD current.payments) ∧
      ((saveData true updates current nowIso).expenses =
        updates.expenses.getD current.expenses) ∧
      ((saveData true updates current nowIso).lastSaved = nowIso) ∧
      (∀ ok, saveData ok updates current nowIso =
        if ok then mergeSave updates current nowIso else current) ∧
      (saveData false updates current nowIso = current) :=
  fun _ _ _ => ⟨rfl, rfl, rfl, rfl, rfl, fun _ => rfl, rfl⟩

/-- The aggregate record returned by `Calculator.getDateRangeStats`. -/
structure RangeStats where
  deliveries : Nat
  bottlesDelivered : ℤ
  revenue : ℤ
  collected : ℤ
  expenses : ℤ
  profit : ℤ
  empties : ℤ
deriving DecidableEq

/-- `Calculator.getDateRangeStats` from the source: each collection is
filtered by the inclusive string comparisons `date >= startDate && date <=
endDate` and then aggregated; `profit` is collected minus expenses. -/
def getDateRangeStats (deliveries : List Delivery) (payments : List Payment)
    (expenses : List Expense) (startDate endDate : String) : RangeStats :=
  let filtered := deliveries.filter
    (fun d => jsLe startDate d.date && jsLe d.date endDate)
  let filteredPayments := payments.filter
    (fun p => jsLe startDate p.date && jsLe p.date endDate)
  let filteredExpenses := expenses.filter
    (fun e => jsLe startDate e.date && jsLe e.date endDate)
  { deliveries := filtered.length,
    bottlesDelivered := filtered.foldl (fun sum d => sum + d.delivered) 0,
    revenue := filtered.foldl (fun sum d => sum + d.amount) 0,
    collected := filteredPayments.foldl (fun sum p => sum + p.amountReceived) 0,
    expenses := filteredExpenses.foldl (fun sum e => sum + e.amount) 0,
    profit := filteredPayments.foldl (fun sum p => sum + p.amountReceived) 0 -
      filteredExpenses.foldl (fun sum e => sum + e.amount) 0,
    empties := filtered.foldl (fun sum d => sum + d.collected) 0 }

/-- C4: `getDateRangeStats` filters by inclusive date-string comparison and
returns `profit` equal to the in-range payments total minus the in-range
expenses total (cash basis — the in-range delivery revenue plays no part);
with nothing in range every aggregate is zero.  All aggregates live in exact
integer arithmetic with no division, so `profit` is a total value — there is
no NaN to surface even when revenue is zero. -/
theorem getDateRangeStats_spec :
    (∀ (ds : List Delivery) (ps : List Payment) (es : List Expense)
       (s e : String),
      (getDateRangeStats ds ps es s e).profit =
        ((ps.filter (fun p => jsLe s p.date && jsLe p.date e)).map
          Payment.amountReceived).sum -
        ((es.filter (fun x => jsLe s x.date && jsLe x.date e)).map
          Expense.amount).sum) ∧
    (∀ (ds : List Delivery) (ps : List Payment) (es : List Expense)
       (s e : String),
      ds.filter (fun d => jsLe s d.date && jsLe d.date e) = [] →
      ps.filter (fun p => jsLe s p.date && jsLe p.date e) = [] →
      es.filter (fun x => jsLe s x.date && jsLe x.date e) = [] →
      getDateRangeStats ds ps es s e =
        { deliveries := 0, bottlesDelivered := 0, revenue := 0, collected := 0,
          expenses := 0, profit := 0, empties := 0 }) := by
  constructor
  · intro ds ps es s e
    simp [getDateRangeStats, foldl_add_map]
  · intro ds ps es s e h1 h2 h3
    simp [getDateRangeStats, h1, h2, h3]

/-- A concrete delivery outside the witness date range. -/
def wDelJan : Delivery :=
  { id := "del_1", date := "2026-01-05", flatNumber := "A1", customerName := "Ali",
    delivered := 10, collected := 8, notes := "", amount := 300,
    createdAt := "2026-01-05T09:00:00Z" }

/-- Witness for C4: a range containing no records yields the all-zero
aggregate record. -/
theorem getDateRangeStats_spec_witness :
    [wDelJan].filter
      (fun d => jsLe "2026-02-01" d.date && jsLe d.date "2026-02-01") = [] ∧
    getDateRangeStats [wDelJan] [] [] "2026-02-01" "2026-02-01" =
      { deliveries := 0, bottlesDelivered := 0, revenue := 0, collected := 0,
        expenses := 0, profit := 0, empties := 0 } :=
  ⟨by decide,
   getDateRangeStats_spec.2 [wDelJan] [] [] "2026-02-01" "2026-02-01"
     (by decide) (by decide) (by decide)⟩

/-- Stable descending insertion by an integer key: the inserted element goes
in front of the first strictly smaller key, behind equal keys inserted
later (matching the stable descending comparator sort of the source). -/
def insertDescBy {α : Type} (key : α → ℤ) (x : α) : List α → List α
  | [] => [x]
  | y :: ys => if key y ≤ key x then x :: y :: ys else y :: insertDescBy key x ys

/-- Stable sort, descending by an integer key; model of
`arr.sort((a, b) => keyOf(b) - keyOf(a))` on date values. -/
def sortDescBy {α : Type} (key : α → ℤ) : List α → List α
  | [] => []
  | x :: xs => insertDescBy key x (sortDescBy key xs)

/-- Milliseconds per day, the `1000 * 60 * 60 * 24` of the source. -/
def msPerDay : ℤ := 1000 * 60 * 60 * 24

/-- One row of the `Calculator.getOverdueDues` result. -/
structure DueEntry where
  customer : Customer
  outstanding : ℤ
  lastDeliveryDate : String
  lastPaymentDate : String
  daysPending : ℤ
  isOverdue : Bool
deriving DecidableEq

/-- The body of the `customers.map` callback of `getOverdueDues`; `parse`
is the host `new Date(string).getTime()` and `now` the current instant in
milliseconds.  Returns `none` (the source's `null`, dropped by
`.filter(Boolean)`) when the customer has no positive outstanding
balance. -/
def dueEntryFor (parse : String → ℤ) (now : ℤ) (deliveries : List Delivery)
    (payments : List Payment) (c : Customer) : Option DueEntry :=
  let outstanding := getCustomerOutstanding c.flatNumber deliveries payments
  if outstanding ≤ 0 then none
  else
    let lastDelivery := (sortDescBy (fun d => parse d.date)
      (deliveries.filter (fun d => d.flatNumber == c.flatNumber))).head?
    let lastPayment := (sortDescBy (fun p => parse p.date)
      (payments.filter (fun p => p.flatNumber == c.flatNumber))).head?
    let dueDate := lastDelivery.map (fun d => parse d.date)
    let isOverdue : Bool :=
      match dueDate with
      | some t => decide (t < now - 30 * msPerDay)
      | none => false
    let daysPending : ℤ :=
      match dueDate with
      | some t => (now - t).fdiv msPerDay
      | none => 0
    some { customer := c, outstanding := outstanding,
           lastDeliveryDate := ((lastDelivery.map Delivery.date).getD ""),
           lastPaymentDate := ((lastPayment.map Payment.date).getD ""),
           daysPending := daysPending, isOverdue := isOverdue }

/-- `Calculator.getOverdueDues` from the source: map every customer to a
due row or `null`, then drop the `null`s. -/
def getOverdueDues (parse : String → ℤ) (now : ℤ) (customers : List Customer)
    (deliveries : List Delivery) (payments : List Payment) : List DueEntry :=
  customers.filterMap (dueEntryFor parse now deliveries payments)

/-- C5: every row of `getOverdueDues` belongs to a customer with strictly
positive outstanding balance — customers with outstanding ≤ 0 are excluded
from the result entirely; and a customer whose only delivery lies 40 whole
days in the past (40 days ≤ now − deliveryTime < 41 days) with outstanding
> 0 appears with `isOverdue = true` (the delivery is more than 30 days old)
and `daysPending = 40` (whole days between now and the delivery). -/
theorem getOverdueDues_spec :
    (∀ (parse : String → ℤ) (now : ℤ) (cs : List Customer) (ds : List Delivery)
       (ps : List Payment) (entry : DueEntry),
      entry ∈ getOverdueDues parse now cs ds ps →
        entry.outstanding = getCustomerOutstanding entry.customer.flatNumber ds ps ∧
        0 < getCustomerOutstanding entry.customer.flatNumber ds ps) ∧
    (∀ (parse : String → ℤ) (now : ℤ) (cs : List Customer) (ds : List Delivery)
       (ps : List Payment) (entry : DueEntry),
      entry ∈ getOverdueDues parse now cs ds ps →
        match (sortDescBy (fun d => parse d.date)
            (ds.filter (fun d => d.flatNumber == entry.customer.flatNumber))).head? with
        | none => entry.isOverdue = false ∧ entry.daysPending = 0
        | some ld =>
          entry.isOverdue = decide (parse ld.date < now - 30 * msPerDay) ∧
          entry.daysPending = (now - parse ld.date).fdiv msPerDay) ∧
    (∀ (parse : String → ℤ) (now : ℤ) (c : Customer) (d : Delivery)
       (ps : List Payment),
      d.flatNumber = c.flatNumber →
      0 < getCustomerOutstanding c.flatNumber [d] ps →
      40 * msPerDay ≤ now - parse d.date →
      now - parse d.date < 41 * msPerDay →
      ∃ entry, getOverdueDues parse now [c] [d] ps = [entry] ∧
        entry.customer = c ∧ entry.isOverdue = true ∧ entry.daysPending = 40) := by
  refine ⟨?_, ?_, ?_⟩
  · intro parse now cs ds ps entry hentry
    obtain ⟨c, _, hfc⟩ := List.mem_filterMap.mp hentry
    simp only [dueEntryFor] at hfc
    split at hfc
    · exact absurd hfc (by simp)
    · rename_i hpos
      obtain rfl := Option.some.inj hfc
      exact ⟨rfl, lt_of_not_le hpos⟩
  · intro parse now cs ds ps entry hentry
    obtain ⟨c, _, hfc⟩ := List.mem_filterMap.mp hentry
    simp only [dueEntryFor] at hfc
    split at hfc
    · exact absurd hfc (by simp)
    · obtain rfl := Option.some.inj hfc
      rcases hld : (sortDescBy (fun d => parse d.date)
          (ds.filter (fun d => d.flatNumber == c.flatNumber))).head? with _ | ld
      · simp only [hld]
        exact ⟨rfl, rfl⟩
      · simp only [hld]
        exact ⟨rfl, rfl⟩
  · intro parse now c d ps h1 h2 h3 h4
    have hms : msPerDay = 86400000 := by decide
    have hfilter : [d].filter (fun x => x.flatNumber == c.flatNumber) = [d] := by
      simp [List.filter, h1]
    simp only [getOverdueDues, List.filterMap_cons, List.filterMap_nil,
      dueEntryFor, hfilter]
    rw [if_neg (not_le.mpr h2)]
    simp only [sortDescBy, insertDescBy, List.head?]
    refine ⟨_, rfl, rfl, ?_, ?_⟩
    · show decide (parse d.date < now - 30 * msPerDay) = true
      simp only [decide_eq_true_eq]
      rw [hms] at h3 ⊢
      omega
    · show (now - parse d.date).fdiv msPerDay = 40
      rw [hms] at h3 h4 ⊢
      rw [Int.fdiv_eq_ediv _ (by norm_num)]
      omega

/-- A concrete customer for the overdue-dues witness. -/
def wCust : Customer :=
  { id := "cust_1", flatNumber := "A1", name := "Ali", phone := "0300",
    rate := 30, createdAt := "2025-01-01T00:00:00Z" }

/-- A delivery whose parsed date is instant 0 under the witness parser. -/
def wDel40 : Delivery :=
  { id := "del_40", date := "2025-12-01", flatNumber := "A1",
    customerName := "Ali", delivered := 10, collected := 0, notes := "",
    amount := 300, createdAt := "2025-12-01T00:00:00Z" }

/-- Witness for C5: with `now` exactly 40 days after the single delivery,
the customer appears as overdue with `daysPending = 40`. -/
theorem getOverdueDues_spec_witness :
    (0 : ℤ) < getCustomerOutstanding wCust.flatNumber [wDel40] [] ∧
    (∃ entry, getOverdueDues (fun _ => 0) (40 * 86400000) [wCust] [wDel40] [] =
        [entry] ∧
      entry.customer = wCust ∧ entry.isOverdue = true ∧ entry.daysPending = 40) :=
  ⟨by decide,
   getOverdueDues_spec.2.2 (fun _ => 0) (40 * 86400000) wCust wDel40 [] rfl
     (by decide) (by decide) (by decide)⟩

/-- C6: when the state contains a customer found under id `i` whose flat
number is `f`, `deleteCustomer i` (dialog confirmed, persistence ok) keeps
exactly the customers with a different id, exactly the deliveries and
payments whose flat number differs from `f` (and no others), and leaves the
expenses collection untouched. -/
theorem deleteCustomer_cascade (nowIso i f : String) (data : AppData)
    (c : Customer) (hfind : data.customers.find? (fun x => x.id == i) = some c)
    (hf : c.flatNumber = f) :
    (deleteCustomer true nowIso true i data).customers =
      data.customers.filter (fun x => x.id != i) ∧
    (deleteCustomer true nowIso true i data).deliveries =
      data.deliveries.filter (fun d => d.flatNumber != f) ∧
    (deleteCustomer true nowIso true i data).payments =
      data.payments.filter (fun p => p.flatNumber != f) ∧
    (deleteCustomer true nowIso true i data).expenses = data.expenses ∧
    (∀ x : Customer, x ∈ (deleteCustomer true nowIso true i data).customers ↔
      (x ∈ data.customers ∧ x.id ≠ i)) ∧
    (∀ d : Delivery, d ∈ (deleteCustomer true nowIso true i data).deliveries ↔
      (d ∈ data.deliveries ∧ d.flatNumber ≠ f)) ∧
    (∀ p : Payment, p ∈ (deleteCustomer true nowIso true i data).payments ↔
      (p ∈ data.payments ∧ p.flatNumber ≠ f)) := by
  subst hf
  have hd : deleteCustomer true nowIso true i data =
      saveData true
        { customers := some (data.customers.filter (fun x => x.id != i)),
          deliveries := some
            (data.deliveries.filter (fun d => d.flatNumber != c.flatNumber)),
          payments := some
            (data.payments.filter (fun p => p.flatNumber != c.flatNumber)),
          expenses := none } data nowIso := by
    simp only [deleteCustomer, hfind, Bool.not_true]
    rfl
  refine ⟨by rw [hd]; rfl, by rw [hd]; rfl, by rw [hd]; rfl, by rw [hd]; rfl,
    ?_, ?_, ?_⟩
  · intro x
    rw [hd]
    simp [saveData, mergeSave, List.mem_filter]
  · intro d
    rw [hd]
    simp [saveData, mergeSave, List.mem_filter]
  · intro p
    rw [hd]
    simp [saveData, mergeSave, List.mem_filter]

/-- A second customer for the deletion witness. -/
def wCust2 : Customer :=
  { id := "cust_2", flatNumber := "B2", name := "Bano", phone := "0301",
    rate := 25, createdAt := "2025-01-02T00:00:00Z" }

/-- A delivery of the second customer. -/
def wDelB : Delivery :=
  { id := "del_b", date := "2026-01-10", flatNumber := "B2",
    customerName := "Bano", delivered := 2, collected := 1, notes := "",
    amount := 50, createdAt := "2026-01-10T00:00:00Z" }

/-- An expense record for the deletion witness. -/
def wExp : Expense :=
  { id := "exp_1", date := "2026-01-11", category := "fuel",
    description := "van fuel", amount := 20, paymentMethod := "cash",
    notes := "", createdAt := "2026-01-11T00:00:00Z" }

/-- A populated state with two customers, used by several witnesses. -/
def wData6 : AppData :=
  { customers := [wCust, wCust2], deliveries := [wDel40, wDelB],
    payments := [overpayPayment], expenses := [wExp], lastSaved := "" }

/-- Witness for C6: deleting customer `cust_1` (flat `A1`) keeps the other
customer's delivery, drops the `A1` payment, and keeps the expenses. -/
theorem deleteCustomer_cascade_witness :
    (wData6.customers.find? (fun x => x.id == "cust_1") = some wCust) ∧
    (deleteCustomer true "t" true "cust_1" wData6).deliveries =
      wData6.deliveries.filter (fun d => d.flatNumber != "A1") ∧
    (deleteCustomer true "t" true "cust_1" wData6).expenses = wData6.expenses :=
  ⟨by decide,
   (deleteCustomer_cascade "t" "cust_1" "A1" wData6 wCust (by decide) rfl).2.1,
   (deleteCustomer_cascade "t" "cust_1" "A1" wData6 wCust (by decide) rfl).2.2.2.1⟩

/-- C9: with all required form fields present but a flat number matching no
customer, `addDelivery` and `addPayment` return with the state unchanged and
no alert at all — unlike the missing-required-field path, which leaves the
state unchanged but surfaces a validation alert. -/
theorem unknownFlat_silent_noop (ok : Bool) (nowIso newId : String)
    (df : DeliveryForm) (pf : PaymentForm) (data : AppData)
    (hd1 : df.date ≠ "") (hd2 : df.flatNumber ≠ "") (hd3 : df.delivered ≠ 0)
    (hd4 : data.customers.find? (fun c => c.flatNumber == df.flatNumber) = none)
    (hp1 : pf.date ≠ "") (hp2 : pf.flatNumber ≠ "") (hp3 : pf.amountReceived ≠ 0)
    (hp4 : data.customers.find? (fun c => c.flatNumber == pf.flatNumber) = none) :
    addDelivery ok nowIso newId df data = (data, none) ∧
    addPayment ok nowIso newId pf data = (data, none) ∧
    addDelivery ok nowIso newId { df with date := "" } data =
      (data, some "⚠️ Please fill required fields") := by
  refine ⟨?_, ?_, ?_⟩
  · unfold addDelivery
    rw [if_neg (by simp [hd1, hd2, hd3]), hd4]
  · unfold addPayment
    rw [if_neg (by simp [hp1, hp2, hp3]), hp4]
  · unfold addDelivery
    rw [if_pos (Or.inl rfl)]

/-- Delivery form naming a flat number that exists for no customer. -/
def wDF9 : DeliveryForm :=
  { date := "2026-03-01", flatNumber := "Z9", delivered := 2, collected := 0,
    notes := "" }

/-- Payment form naming a flat number that exists for no customer. -/
def wPF9 : PaymentForm :=
  { date := "2026-03-01", flatNumber := "Z9", amountReceived := 50,
    method := "cash", notes := "" }

/-- Witness for C9: against the populated state, forms naming flat `Z9`
are silent no-ops. -/
theorem unknownFlat_silent_noop_witness :
    (wData6.customers.find? (fun c => c.flatNumber == wDF9.flatNumber) = none) ∧
    addDelivery true "t" "del_9" wDF9 wData6 = (wData6, none) ∧
    addPayment true "t" "pay_9" wPF9 wData6 = (wData6, none) :=
  ⟨by decide,
   (unknownFlat_silent_noop true "t" "del_9" wDF9 wPF9 wData6 (by decide)
     (by decide) (by decide) (by decide) (by decide) (by decide) (by decide)
     (by decide)).1,
   (unknownFlat_silent_noop true "t" "pay_9" wDF9 wPF9 wData6 (by decide)
     (by decide) (by decide) (by decide) (by decide) (by decide) (by decide)
     (by decide)).2.1⟩

/-- C10: the ledger aggregation matches flat numbers by exact case-sensitive
equality — under two flat-number strings equal up to letter case but not
identical, records filed under one contribute nothing to the outstanding
balance of the other — whereas `addCustomer` rejects duplicates
case-insensitively (lower-cased comparison). -/
theorem caseSensitive_ledger_vs_dup (f g : String) (ds : List Delivery)
    (ps : List Payment) (ok : Bool) (nowIso newId : String)
    (form : CustomerForm) (data : AppData)
    (hlow : jsToLower f = jsToLower g) (hne : f ≠ g)
    (hds : ∀ d ∈ ds, d.flatNumber = f) (hps : ∀ p ∈ ps, p.flatNumber = f)
    (hform : ¬(form.flatNumber = "" ∨ form.name = ""))
    (hdup : ∃ c ∈ data.customers,
      jsToLower c.flatNumber = jsToLower form.flatNumber) :
    getCustomerOutstanding g ds ps = 0 ∧
    addCustomer ok nowIso newId form data =
      (data, some "⚠️ Flat number exists!") := by
  constructor
  · have hfd : ds.filter (fun d => d.flatNumber == g) = [] :=
      List.filter_eq_nil_iff.mpr (fun d hd => by
        rw [hds d hd]
        simp only [beq_iff_eq]
        exact hne)
    have hfp : ps.filter (fun p => p.flatNumber == g) = [] :=
      List.filter_eq_nil_iff.mpr (fun p hp => by
        rw [hps p hp]
        simp only [beq_iff_eq]
        exact hne)
    simp [getCustomerOutstanding, hfd, hfp]
  · obtain ⟨c, hc, heq⟩ := hdup
    unfold addCustomer
    rw [if_neg hform, if_pos (List.any_eq_true.mpr ⟨c, hc, by simp [heq]⟩)]

/-- The customer form attempting to re-register flat `A1` as `a1`. -/
def wCForm : CustomerForm :=
  { flatNumber := "a1", name := "Sara", phone := "0302", rate := 30 }

/-- Witness for C10: deliveries under `A1` do not count towards `a1`, yet
`addCustomer` refuses `a1` because `A1` exists. -/
theorem caseSensitive_ledger_vs_dup_witness :
    ("A1" : String) ≠ "a1" ∧
    (getCustomerOutstanding "a1" [wDel40] [] = 0 ∧
     addCustomer true "t" "cust_9" wCForm wData6 =
       (wData6, some "⚠️ Flat number exists!")) :=
  ⟨by decide,
   caseSensitive_ledger_vs_dup "A1" "a1" [wDel40] [] true "t" "cust_9" wCForm
     wData6 (by decide) (by decide) (by decide) (by decide) (by decide)
     ⟨wCust, by decide, by decide⟩⟩

/-- `stats.totalRevenue` of `getStats`: sum of all delivery amounts. -/
def totalRevenue (data : AppData) : ℤ :=
  data.deliveries.foldl (fun sum d => sum + d.amount) 0

/-- `stats.totalCollected` of `getStats`: sum of all payment amounts. -/
def totalCollected (data : AppData) : ℤ :=
  data.payments.foldl (fun sum p => sum + p.amountReceived) 0

/-- JavaScript number model sufficient for the reports-tab arithmetic:
exact rationals extended with the IEEE specials (negative zero is not
distinguished — it plays no role in the expressions modelled here). -/
inductive JSNum where
  | fin (q : ℚ)
  | posInf
  | negInf
  | nan
deriving DecidableEq

/-- JavaScript truthiness of a number: `0` and `NaN` are falsy. -/
def jsTruthy : JSNum → Bool
  | .fin q => q != 0
  | .nan => false
  | _ => true

/-- JavaScript `||` on numbers: the left operand unless it is falsy. -/
def jsOr (a b : JSNum) : JSNum := if jsTruthy a then a else b

/-- JavaScript multiplication on the extended numbers. -/
def jsMul : JSNum → JSNum → JSNum
  | .nan, _ => .nan
  | _, .nan => .nan
  | .fin a, .fin b => .fin (a * b)
  | .posInf, .posInf => .posInf
  | .posInf, .negInf => .negInf
  | .negInf, .posInf => .negInf
  | .negInf, .negInf => .posInf
  | .posInf, .fin b => if b = 0 then .nan else if 0 < b then .posInf else .negInf
  | .fin a, .posInf => if a = 0 then .nan else if 0 < a then .posInf else .negInf
  | .negInf, .fin b => if b = 0 then .nan else if 0 < b then .negInf else .posInf
  | .fin a, .negInf => if a = 0 then .nan else if 0 < a then .negInf else .posInf

/-- JavaScript division on the extended numbers: `0/0` is NaN and a nonzero
finite value divided by zero is a signed infinity. -/
def jsDiv : JSNum → JSNum → JSNum
  | .nan, _ => .nan
  | _, .nan => .nan
  | .fin a, .fin b =>
    if b = 0 then (if a = 0 then .nan else if 0 < a then .posInf else .negInf)
    else .fin (a / b)
  | .posInf, .fin b => if 0 ≤ b then .posInf else .negInf
  | .negInf, .fin b => if 0 ≤ b then .negInf else .posInf
  | .fin _, .posInf => .fin 0
  | .fin _, .negInf => .fin 0
  | _, _ => .nan

/-- The collection-rate expression of the reports tab:
`(totalCollected / totalRevenue) * 100 || 0`. -/
def collectionRate (collected revenue : JSNum) : JSNum :=
  jsOr (jsMul (jsDiv collected revenue) (JSNum.fin 100)) (JSNum.fin 0)

/-- The collection rate as rendered from a state's totals. -/
def collectionRateDisplay (data : AppData) : JSNum :=
  collectionRate (JSNum.fin (totalCollected data : ℚ))
    (JSNum.fin (totalRevenue data : ℚ))

/-- A state with a payment but no deliveries: total revenue 0, collected
positive. -/
def cexData : AppData :=
  { customers := [wCust], deliveries := [], payments := [overpayPayment],
    expenses := [], lastSaved := "" }

/-- Counterexample to C7: with totalRevenue = 0 and totalCollected > 0 the
rendered collection rate is Infinity — a non-finite value — not 0, because
`|| 0` only replaces the falsy NaN of `0/0`, not the truthy Infinity of
`positive/0`. -/
theorem collectionRate_cex :
    totalRevenue cexData = 0 ∧
    0 < totalCollected cexData ∧
    collectionRateDisplay cexData = JSNum.posInf ∧
    collectionRateDisplay cexData ≠ JSNum.fin 0 := by
  refine ⟨by decide, by decide, ?_, ?_⟩
  · show collectionRate (JSNum.fin ((1 : ℤ) : ℚ)) (JSNum.fin ((0 : ℤ) : ℚ)) =
      JSNum.posInf
    decide
  · show collectionRate (JSNum.fin ((1 : ℤ) : ℚ)) (JSNum.fin ((0 : ℤ) : ℚ)) ≠
      JSNum.fin 0
    decide

/-- C7 as amended: the collection rate is `totalCollected / totalRevenue ×
100` whenever totalRevenue ≠ 0; when both totals are 0 the NaN of `0/0` is
replaced by 0; but when totalRevenue is 0 and totalCollected is positive the
rate surfaces as the non-finite value Infinity rather than 0. -/
theorem collectionRate_amended (c r c2 : ℚ) (hr : r ≠ 0) (hc2 : 0 < c2) :
    collectionRate (JSNum.fin c) (JSNum.fin r) = JSNum.fin (c / r * 100) ∧
    collectionRate (JSNum.fin 0) (JSNum.fin 0) = JSNum.fin 0 ∧
    collectionRate (JSNum.fin c2) (JSNum.fin 0) = JSNum.posInf := by
  refine ⟨?_, by decide, ?_⟩
  · show jsOr (jsMul
        (if r = 0 then
          (if c = 0 then JSNum.nan else if 0 < c then JSNum.posInf else JSNum.negInf)
        else JSNum.fin (c / r)) (JSNum.fin 100)) (JSNum.fin 0) =
      JSNum.fin (c / r * 100)
    rw [if_neg hr]
    by_cases h : c / r * 100 = 0
    · simp [jsMul, jsOr, jsTruthy, h]
    · simp [jsMul, jsOr, jsTruthy, h]
  · have hne2 : c2 ≠ 0 := ne_of_gt hc2
    show jsOr (jsMul
        (if (0 : ℚ) = 0 then
          (if c2 = 0 then JSNum.nan else if 0 < c2 then JSNum.posInf else JSNum.negInf)
        else JSNum.fin (c2 / 0)) (JSNum.fin 100)) (JSNum.fin 0) =
      JSNum.posInf
    rw [if_pos rfl, if_neg hne2, if_pos hc2]
    decide

/-- Witness for C7's amended statement at concrete totals. -/
theorem collectionRate_amended_witness :
    ((200 : ℚ) ≠ 0) ∧ ((0 : ℚ) < 7) ∧
    (collectionRate (JSNum.fin 50) (JSNum.fin 200) = JSNum.fin (50 / 200 * 100) ∧
     collectionRate (JSNum.fin 0) (JSNum.fin 0) = JSNum.fin 0 ∧
     collectionRate (JSNum.fin 7) (JSNum.fin 0) = JSNum.posInf) :=
  ⟨by norm_num, by norm_num,
   collectionRate_amended 50 200 7 (by norm_num) (by norm_num)⟩

end WaterCRM
